import Mathlib

/-!
Shallow embedding of `src/server/whisper-service/transcribe.py`, a CLI that
transcribes one audio file with the Whisper model and prints a JSON result.

The external `whisper` library is opaque: it is modelled by a `WhisperAPI`
record whose two operations may either return a value or raise a fault
(`Except String`, the `String` being the fault's textual description,
i.e. Python's `str(e)`).  The module-level mutable `MODEL` variable is
threaded explicitly as an `Option M` state.  Writes to stdout/stderr are
collected as lists of printed lines.
-/

namespace Transcribe

/-- One hexadecimal digit, lower case, as produced by CPython's
`json` encoder in `\uXXXX` escapes. -/
def hexDigit (n : Nat) : Char :=
  if n < 10 then Char.ofNat (48 + n) else Char.ofNat (87 + n)

/-- A `\uXXXX` escape for a code unit `n < 65536`. -/
def uEscape (n : Nat) : String :=
  "\\u" ++ String.mk [hexDigit (n / 4096 % 16), hexDigit (n / 256 % 16),
                      hexDigit (n / 16 % 16), hexDigit (n % 16)]

/-- How `json.dumps` (default `ensure_ascii=True`) renders one character of a
string: quote and backslash are backslash-escaped, the common control
characters use their short escapes, every other character outside
the printable ASCII range 0x20..0x7e becomes `\uXXXX` (a surrogate
pair for astral code points). -/
def escapeChar (c : Char) : String :=
  if c = '"' then "\\\""
  else if c = '\\' then "\\\\"
  else if c = '\n' then "\\n"
  else if c = '\t' then "\\t"
  else if c = '\r' then "\\r"
  else if c.toNat = 8 then "\\b"
  else if c.toNat = 12 then "\\f"
  else if c.toNat < 32 then uEscape c.toNat
  else if c.toNat < 127 then c.toString
  else if c.toNat ≤ 65535 then uEscape c.toNat
  else uEscape (55296 + (c.toNat - 65536) / 1024) ++
       uEscape (56320 + (c.toNat - 65536) % 1024)

/-- `json.dumps` of a Python string. -/
def dumpsStr (s : String) : String :=
  "\"" ++ String.join (s.data.map escapeChar) ++ "\""

/-- The dictionaries returned by `transcribe_audio`: either the success
dict with keys `success/text/language/segments` or the failure dict
with keys `success/error`. -/
inductive TranscriptionResult where
  | success (text : String) (language : String) (segments : Nat)
  | failure (error : String)
  deriving DecidableEq, Repr

/-- The boolean stored under the `success` key. -/
def TranscriptionResult.isSuccess : TranscriptionResult → Bool
  | .success _ _ _ => true
  | .failure _ => false

/-- `json.dumps` of a `TranscriptionResult` dict, with CPython's default
separators and insertion-ordered keys, exactly as the script prints it. -/
def dumpsResult : TranscriptionResult → String
  | .success t l n =>
      "\x7b\"success\": true, \"text\": " ++ dumpsStr t ++
      ", \"language\": " ++ dumpsStr l ++
      ", \"segments\": " ++ toString n ++ "\x7d"
  | .failure e =>
      "\x7b\"success\": false, \"error\": " ++ dumpsStr e ++ "\x7d"

/-- The keyword options the script passes to `model.transcribe`. -/
structure TranscribeOptions where
  language : Option String
  fp16 : Bool
  verbose : Bool
  deriving DecidableEq, Repr

/-- The dict produced by `model.transcribe`.  Each field is `none` when the
corresponding key is absent from the dict; segments are opaque, only their
count matters to the script. -/
structure WhisperOutput where
  text : Option String
  language : Option String
  segments : Option (List Unit)
  deriving DecidableEq, Repr

/-- The opaque external collaborator (the `whisper` library), over an
abstract type `M` of model handles.  `load_model` is
`whisper.load_model`; `transcribe` is the handle's `transcribe` method.
An `Except.error e` value models the call raising a fault whose textual
description (`str(e)`) is `e`. -/
structure WhisperAPI (M : Type) where
  load_model : String → Except String M
  transcribe : M → String → TranscribeOptions → Except String WhisperOutput

/-- `str(KeyError('text'))`, the description of the fault raised by
`result['text']` when the key is absent. -/
def keyErrorText : String := "\x27text\x27"

/-- The stderr line `f"Loading Whisper \x7bmodel_name\x7d model..."`. -/
def loadingMsg (model_name : String) : String :=
  "Loading Whisper " ++ model_name ++ " model..."

/-- Outcome of one call to the script's `load_model`: the returned value
(or propagated fault), the new value of the global `MODEL`, and the lines
printed to stderr. -/
structure LoadResult (M : Type) where
  result : Except String M
  state : Option M
  stderr : List String

/-- The script's `load_model`.  `env` is `os.getenv('WHISPER_MODEL')`;
`st` is the current value of the global `MODEL`.  If `MODEL` is set it is
returned unchanged; otherwise `whisper.load_model` runs on the configured
name (default `"tiny"`), and on a fault `MODEL` is left unset and the
fault propagates. -/
def load_model {M : Type} (api : WhisperAPI M) (env : Option String)
    (st : Option M) : LoadResult M :=
  match st with
  | some m => ⟨.ok m, some m, []⟩
  | none =>
      let model_name := env.getD "tiny"
      match api.load_model model_name with
      | .ok m => ⟨.ok m, some m, [loadingMsg model_name, "Model loaded successfully"]⟩
      | .error e => ⟨.error e, none, [loadingMsg model_name]⟩

/-- The fixed keyword options of the script's single `model.transcribe`
call: `language='en', fp16=False, verbose=False`. -/
def fixedOptions : TranscribeOptions :=
  { language := some "en", fp16 := false, verbose := false }

/-- Outcome of one call to `transcribe_audio`: the returned dict, the new
value of the global `MODEL`, and the lines printed to stderr. -/
structure TranscribeRun (M : Type) where
  result : TranscriptionResult
  state : Option M
  stderr : List String

/-- The script's `transcribe_audio`.  Every fault — from `load_model`,
from `model.transcribe`, or the `KeyError` from `result['text']` — is
caught by the `except Exception` handler and turned into the failure
dict carrying `str(e)`; the function is total, no exception escapes. -/
def transcribe_audio {M : Type} (api : WhisperAPI M) (env : Option String)
    (st : Option M) (audio_path : String) : TranscribeRun M :=
  let lr := load_model api env st
  match lr.result with
  | .error e => ⟨.failure e, lr.state, lr.stderr⟩
  | .ok model =>
      match api.transcribe model audio_path fixedOptions with
      | .error e => ⟨.failure e, lr.state, lr.stderr⟩
      | .ok result =>
          match result.text with
          | none => ⟨.failure keyErrorText, lr.state, lr.stderr⟩
          | some t =>
              ⟨.success t.trim (result.language.getD "en")
                 (result.segments.getD []).length, lr.state, lr.stderr⟩

/-- `os.path.exists`, over a filesystem modelled as the list of existing
paths. -/
def os_path_exists (fs : List String) (p : String) : Bool :=
  fs.contains p

/-- Outcome of one run of `main`: the lines printed to stdout and stderr,
the process exit code, and the final value of the global `MODEL`. -/
structure MainRun (M : Type) where
  stdout : List String
  stderr : List String
  exitCode : Nat
  state : Option M

/-- The script's `main`.  `args` is `sys.argv[1:]` (the arguments after
the program name), `fs` the filesystem, `st` the global `MODEL` (which is
`none` at process start). -/
def main {M : Type} (api : WhisperAPI M) (env : Option String)
    (fs : List String) (args : List String) (st : Option M) : MainRun M :=
  match args with
  | [] => ⟨[dumpsResult (.failure "No audio file provided")], [], 1, st⟩
  | audio_path :: _ =>
      if os_path_exists fs audio_path then
        let run := transcribe_audio api env st audio_path
        ⟨[dumpsResult run.result], run.stderr,
         if run.result.isSuccess then 0 else 1, run.state⟩
      else
        ⟨[dumpsResult (.failure ("Audio file not found: " ++ audio_path))],
         [], 1, st⟩

/-- C2: with zero arguments, `main` writes exactly the JSON line
`\x7b"success": false, "error": "No audio file provided"\x7d` to stdout and
exits with code 1 (for every library behavior, environment, filesystem and
model state). -/
theorem main_no_args {M : Type} (api : WhisperAPI M) (env : Option String)
    (fs : List String) (st : Option M) :
    (main api env fs [] st).stdout =
      ["\x7b\"success\": false, \"error\": \"No audio file provided\"\x7d"] ∧
    (main api env fs [] st).exitCode = 1 := by
  constructor
  · rfl
  · rfl

/-! Concrete library behaviors used to instantiate the theorems below. -/

/-- A model output with all three keys present. -/
def sampleOutput : WhisperOutput :=
  ⟨some "  hello world  ", some "en", some [(), ()]⟩

/-- A library whose load and transcribe calls both succeed. -/
def okAPI : WhisperAPI Nat :=
  ⟨fun _ => .ok 7, fun _ _ _ => .ok sampleOutput⟩

/-- A library whose model load always faults. -/
def loadFailAPI : WhisperAPI Nat :=
  ⟨fun _ => .error "load failed", fun _ _ _ => .ok sampleOutput⟩

/-- A library whose transcribe call always faults. -/
def transcribeFailAPI : WhisperAPI Nat :=
  ⟨fun _ => .ok 7, fun _ _ _ => .error "bad audio"⟩

/-- A library returning an output without the `text` key. -/
def noTextAPI : WhisperAPI Nat :=
  ⟨fun _ => .ok 7, fun _ _ _ => .ok ⟨none, some "en", some []⟩⟩

/-- A library returning an output with only the `text` key. -/
def bareAPI : WhisperAPI Nat :=
  ⟨fun _ => .ok 7, fun _ _ _ => .ok ⟨some " hi ", none, none⟩⟩

/-- A library that only answers transcribe calls carrying exactly the
script's fixed options. -/
def spyAPI : WhisperAPI Nat :=
  ⟨fun _ => .ok 7,
   fun _ _ opts =>
     if opts = fixedOptions then .ok sampleOutput else .error "unexpected options"⟩

/-- C3: a path `p` that does not exist makes `main` print the
`Audio file not found` failure JSON with `p` interpolated and exit 1;
the whole outcome (right-hand side) does not mention the library `api`
and leaves the model state `st` unchanged, so no transcription is
attempted. -/
theorem main_missing_file {M : Type} (api : WhisperAPI M) (env : Option String)
    (fs : List String) (p : String) (rest : List String) (st : Option M)
    (h : os_path_exists fs p = false) :
    main api env fs (p :: rest) st =
      ⟨[dumpsResult (.failure ("Audio file not found: " ++ p))], [], 1, st⟩ := by
  simp [main, h]

theorem main_missing_file_witness :
    main okAPI none [] ["missing.wav"] none =
      ⟨[dumpsResult (.failure ("Audio file not found: " ++ "missing.wav"))],
       [], 1, none⟩ :=
  main_missing_file okAPI none [] "missing.wav" [] none rfl

/-- C4: when the path exists, `main` prints the JSON serialization of
`transcribe_audio`'s result and exits 0 iff that result's success flag is
true, else 1. -/
theorem main_existing_file {M : Type} (api : WhisperAPI M) (env : Option String)
    (fs : List String) (p : String) (rest : List String) (st : Option M)
    (h : os_path_exists fs p = true) :
    (main api env fs (p :: rest) st).stdout =
      [dumpsResult (transcribe_audio api env st p).result] ∧
    (main api env fs (p :: rest) st).exitCode =
      (if (transcribe_audio api env st p).result.isSuccess then 0 else 1) ∧
    ((main api env fs (p :: rest) st).exitCode = 0 ↔
      (transcribe_audio api env st p).result.isSuccess = true) := by
  refine ⟨by simp [main, h], by simp [main, h], ?_⟩
  simp only [main, h, if_true]
  cases h2 : (transcribe_audio api env st p).result.isSuccess <;> simp [h2]

theorem main_existing_file_witness :
    (main okAPI none ["a.wav"] ["a.wav"] none).stdout =
      [dumpsResult (transcribe_audio okAPI none none "a.wav").result] ∧
    (main okAPI none ["a.wav"] ["a.wav"] none).exitCode =
      (if (transcribe_audio okAPI none none "a.wav").result.isSuccess
       then 0 else 1) ∧
    ((main okAPI none ["a.wav"] ["a.wav"] none).exitCode = 0 ↔
      (transcribe_audio okAPI none none "a.wav").result.isSuccess = true) :=
  main_existing_file okAPI none ["a.wav"] "a.wav" [] none rfl

/-- The underlying capability raises a fault with textual description `e`
while `transcribe_audio` runs on `path`: either the (not yet memoized)
model load faults, or the model's transcribe call on the loaded handle
faults. -/
def raisesFault {M : Type} (api : WhisperAPI M) (env : Option String)
    (st : Option M) (path : String) (e : String) : Prop :=
  (load_model api env st).result = .error e ∨
  ∃ m, (load_model api env st).result = .ok m ∧
    api.transcribe m path fixedOptions = .error e

/-- C1: any fault of the underlying capability (model-load faults
included) is caught: `transcribe_audio` returns the failure variant whose
`error` is the fault's textual description (non-empty when the
description is), no exception escapes (`transcribe_audio` is total at
type `TranscribeRun`), and `main` prints that failure JSON and exits 1. -/
theorem transcribe_audio_catches_fault {M : Type} (api : WhisperAPI M)
    (env : Option String) (st : Option M) (path e : String)
    (fs : List String) (rest : List String)
    (hf : raisesFault api env st path e) (hne : e ≠ "")
    (hex : os_path_exists fs path = true) :
    (transcribe_audio api env st path).result = .failure e ∧
    e ≠ "" ∧
    (main api env fs (path :: rest) st).stdout = [dumpsResult (.failure e)] ∧
    (main api env fs (path :: rest) st).exitCode = 1 := by
  have hres : (transcribe_audio api env st path).result = .failure e := by
    rcases hf with h | ⟨m, hok, herr⟩
    · simp only [transcribe_audio]
      rw [h]
    · simp only [transcribe_audio, hok, herr]
  refine ⟨hres, hne, ?_, ?_⟩
  · simp [main, hex, hres]
  · simp [main, hex, hres, TranscriptionResult.isSuccess]

theorem transcribe_audio_catches_fault_witness :
    (transcribe_audio loadFailAPI none none "a.wav").result =
      .failure "load failed" ∧
    "load failed" ≠ "" ∧
    (main loadFailAPI none ["a.wav"] ["a.wav"] none).stdout =
      [dumpsResult (.failure "load failed")] ∧
    (main loadFailAPI none ["a.wav"] ["a.wav"] none).exitCode = 1 :=
  transcribe_audio_catches_fault loadFailAPI none none "a.wav" "load failed"
    ["a.wav"] [] (Or.inl rfl) (by decide) rfl

/-- C5: when the model call succeeds and its output has a `text` key,
`transcribe_audio` returns the success variant: `text` is the transcript
trimmed, `language` is the output's language defaulting to `"en"` when
absent, and the segment count is the length of the output's segment
list defaulting to the empty one — a `Nat`, hence non-negative. -/
theorem transcribe_audio_success_fields {M : Type} (api : WhisperAPI M)
    (env : Option String) (st : Option M) (path : String) (m : M)
    (out : WhisperOutput) (t : String)
    (hload : (load_model api env st).result = .ok m)
    (hcall : api.transcribe m path fixedOptions = .ok out)
    (htext : out.text = some t) :
    (transcribe_audio api env st path).result =
      .success t.trim (out.language.getD "en")
        (out.segments.getD []).length := by
  simp only [transcribe_audio, hload, hcall, htext]

theorem transcribe_audio_success_fields_witness :
    (transcribe_audio okAPI none none "a.wav").result =
      .success "  hello world  ".trim (sampleOutput.language.getD "en")
        (sampleOutput.segments.getD []).length :=
  transcribe_audio_success_fields okAPI none none "a.wav" 7 sampleOutput
    "  hello world  " rfl rfl rfl

/-- Helper: `transcribe_audio` prints nothing of its own; its stderr is
exactly what `load_model` printed. -/
theorem transcribe_audio_stderr_eq {M : Type} (api : WhisperAPI M)
    (env : Option String) (st : Option M) (path : String) :
    (transcribe_audio api env st path).stderr =
      (load_model api env st).stderr := by
  simp only [transcribe_audio]
  cases h : (load_model api env st).result with
  | error e => simp [h]
  | ok m =>
      simp only [h]
      cases h2 : api.transcribe m path fixedOptions with
      | error e => simp
      | ok out => cases h3 : out.text <;> simp [h3]

/-- Helper: every line `load_model` prints to stderr is one of the two
model-loading status messages. -/
theorem load_model_stderr_lines {M : Type} (api : WhisperAPI M)
    (env : Option String) (st : Option M) :
    ∀ line ∈ (load_model api env st).stderr,
      line = loadingMsg (env.getD "tiny") ∨ line = "Model loaded successfully" := by
  cases st with
  | some m => simp [load_model]
  | none =>
      cases h : api.load_model (env.getD "tiny") with
      | ok m =>
          simp only [load_model, h]
          intro line hline
          simpa using hline
      | error e =>
          simp only [load_model, h]
          intro line hline
          exact Or.inl (by simpa using hline)

/-- C6: on every invocation `main` writes exactly one line to stdout —
the JSON serialization of some `TranscriptionResult` — and every line on
stderr is one of the two model-loading status messages; the structured
result never goes to stderr and the status messages never go to stdout. -/
theorem main_stream_discipline {M : Type} (api : WhisperAPI M)
    (env : Option String) (fs : List String) (args : List String)
    (st : Option M) :
    (∃ r, (main api env fs args st).stdout = [dumpsResult r]) ∧
    ∀ line ∈ (main api env fs args st).stderr,
      line = loadingMsg (env.getD "tiny") ∨ line = "Model loaded successfully" := by
  cases args with
  | nil =>
      constructor
      · exact ⟨.failure "No audio file provided", rfl⟩
      · intro line hline
        simp [main] at hline
  | cons p rest =>
      by_cases hex : os_path_exists fs p
      · constructor
        · exact ⟨(transcribe_audio api env st p).result, by simp [main, hex]⟩
        · intro line hline
          simp only [main, hex, if_true] at hline
          rw [transcribe_audio_stderr_eq] at hline
          exact load_model_stderr_lines api env st line hline
      · constructor
        · exact ⟨.failure ("Audio file not found: " ++ p), by simp [main, hex]⟩
        · intro line hline
          simp [main, hex] at hline

/-- C7: `load_model` is memoized.  With `MODEL` unset, the first
successful call reads the model name from the environment (default
`"tiny"`), initializes, logs, and caches the handle; once the cache
holds `m`, every later call returns `m` and prints nothing, for any
library behavior `api2` and any environment `env2` — so the model is
not reinitialized and the environment is not re-read. -/
theorem load_model_memoized {M : Type} (api : WhisperAPI M)
    (env : Option String) (m : M)
    (h : api.load_model (env.getD "tiny") = .ok m) :
    load_model api env none =
      ⟨.ok m, some m,
       [loadingMsg (env.getD "tiny"), "Model loaded successfully"]⟩ ∧
    ∀ (api2 : WhisperAPI M) (env2 : Option String),
      load_model api2 env2 (some m) = ⟨.ok m, some m, []⟩ := by
  constructor
  · simp only [load_model, h]
  · intro api2 env2
    rfl

theorem load_model_memoized_witness :
    load_model okAPI none none =
      ⟨.ok 7, some 7, [loadingMsg "tiny", "Model loaded successfully"]⟩ ∧
    load_model loadFailAPI (some "base") (some 7) = ⟨.ok 7, some 7, []⟩ :=
  ⟨(load_model_memoized okAPI none 7 rfl).1,
   (load_model_memoized okAPI none 7 rfl).2 loadFailAPI (some "base")⟩

/-- C8: the script's behavior only depends on the model's transcribe
capability at the one fixed option record — so every invocation passes
exactly `language='en'`, `fp16=False`, `verbose=False` — and that record
indeed fixes the English language hint, disables fp16 and disables
verbose logging. -/
theorem transcribe_audio_options_fixed {M : Type} (api api2 : WhisperAPI M)
    (env : Option String) (st : Option M) (path : String)
    (hload : api.load_model = api2.load_model)
    (hsame : ∀ (m : M) (p : String),
      api.transcribe m p fixedOptions = api2.transcribe m p fixedOptions) :
    transcribe_audio api env st path = transcribe_audio api2 env st path ∧
    fixedOptions.language = some "en" ∧ fixedOptions.fp16 = false ∧
    fixedOptions.verbose = false := by
  have hlm : load_model api env st = load_model api2 env st := by
    unfold load_model
    rw [hload]
  refine ⟨?_, rfl, rfl, rfl⟩
  simp only [transcribe_audio, hlm]
  cases hres : (load_model api2 env st).result with
  | error e => rfl
  | ok m => simp only [hsame m path]

theorem transcribe_audio_options_fixed_witness :
    transcribe_audio spyAPI none none "a.wav" =
      transcribe_audio okAPI none none "a.wav" ∧
    fixedOptions.language = some "en" ∧ fixedOptions.fp16 = false ∧
    fixedOptions.verbose = false :=
  transcribe_audio_options_fixed spyAPI okAPI none none "a.wav" rfl
    (fun _ _ => by simp [spyAPI, okAPI])

/-- C9: memoized initialization is atomic on failure.  If the underlying
load faults, `load_model` propagates the fault and leaves `MODEL` unset
(as does `transcribe_audio`, which catches it), so a later call with
`MODEL` still unset attempts the full initialization again — reading the
environment and invoking the underlying load — rather than returning a
partially-initialized handle. -/
theorem load_model_atomic_failure {M : Type} (api : WhisperAPI M)
    (env : Option String) (e : String) (path : String)
    (h : api.load_model (env.getD "tiny") = .error e) :
    load_model api env none =
      ⟨.error e, none, [loadingMsg (env.getD "tiny")]⟩ ∧
    (transcribe_audio api env none path).state = none ∧
    ∀ (api2 : WhisperAPI M) (m : M),
      api2.load_model (env.getD "tiny") = .ok m →
      load_model api2 env none =
        ⟨.ok m, some m,
         [loadingMsg (env.getD "tiny"), "Model loaded successfully"]⟩ := by
  have h1 : load_model api env none =
      ⟨.error e, none, [loadingMsg (env.getD "tiny")]⟩ := by
    simp only [load_model, h]
  refine ⟨h1, ?_, ?_⟩
  · simp only [transcribe_audio, h1]
  · intro api2 m h2
    simp only [load_model, h2]

theorem load_model_atomic_failure_witness :
    load_model loadFailAPI none none =
      ⟨.error "load failed", none, [loadingMsg "tiny"]⟩ ∧
    (transcribe_audio loadFailAPI none none "a.wav").state = none ∧
    load_model okAPI none none =
      ⟨.ok 7, some 7, [loadingMsg "tiny", "Model loaded successfully"]⟩ :=
  ⟨(load_model_atomic_failure loadFailAPI none "load failed" "a.wav" rfl).1,
   (load_model_atomic_failure loadFailAPI none "load failed" "a.wav" rfl).2.1,
   (load_model_atomic_failure loadFailAPI none "load failed" "a.wav" rfl).2.2
     okAPI 7 rfl⟩

/-- C10: the output keys are not treated uniformly.  If the model's
result lacks the `text` key, `transcribe_audio` returns the failure
variant carrying the caught `KeyError`'s description; a result with a
`text` key but lacking both `language` and `segments` still yields the
success variant with the defaults `"en"` and 0. -/
theorem transcribe_audio_key_asymmetry {M : Type} (api api2 : WhisperAPI M)
    (env : Option String) (st : Option M) (path : String) (m m2 : M)
    (out : WhisperOutput) (t : String)
    (hload : (load_model api env st).result = .ok m)
    (hmiss : api.transcribe m path fixedOptions = .ok out)
    (htext : out.text = none)
    (hload2 : (load_model api2 env st).result = .ok m2)
    (hbare : api2.transcribe m2 path fixedOptions = .ok ⟨some t, none, none⟩) :
    (transcribe_audio api env st path).result = .failure keyErrorText ∧
    (transcribe_audio api2 env st path).result = .success t.trim "en" 0 := by
  constructor
  · simp only [transcribe_audio, hload, hmiss, htext]
  · simp only [transcribe_audio, hload2, hbare]
    rfl

theorem transcribe_audio_key_asymmetry_witness :
    (transcribe_audio noTextAPI none none "a.wav").result =
      .failure keyErrorText ∧
    (transcribe_audio bareAPI none none "a.wav").result =
      .success " hi ".trim "en" 0 :=
  transcribe_audio_key_asymmetry noTextAPI bareAPI none none "a.wav" 7 7
    ⟨none, some "en", some []⟩ " hi " rfl rfl rfl rfl rfl

end Transcribe
